import Mathlib

/-!
Shallow embedding of `src/1_classification_animeface/py/main.py`: a
PyTorch-Lightning image-classification script.  The embedding models the
configuration object, the `ImageClassifier` Lightning-module methods
(step functions, epoch-end aggregation, optimizer / callback / dataloader
construction) and the top-level `main` sequence, and proves the spec's
claims about them.

Numeric values (Python floats, numpy scalars, scalar tensors) are modelled
as rationals; the dynamic typing of Python values that matters to the
claims (a plain `float` has no `.cpu()` attribute, a tensor does) is
modelled by a tagged value type `PyVal`, and fallible Python evaluation by
`Except PyError`.
-/

namespace AnimeFace

/-- A Python runtime error relevant to this script: attribute lookup
failure and division by zero. -/
inductive PyError where
  | attributeError (attr : String)
  | zeroDivisionError
  deriving DecidableEq, Repr

/-- A dynamically typed Python value as it appears in the validation
outputs: either a plain Python `float` (what `Tensor.item()` returns) or a
scalar tensor, each carrying its numeric value. -/
inductive PyVal where
  | float (q : ℚ)
  | tensor (q : ℚ)
  deriving DecidableEq, Repr

/-- `v.cpu()`: defined on tensors (returns the same scalar tensor); a plain
`float` has no attribute `cpu`, so the call raises `AttributeError`. -/
def PyVal.cpu : PyVal → Except PyError PyVal
  | PyVal.tensor q => Except.ok (PyVal.tensor q)
  | PyVal.float _ => Except.error (PyError.attributeError "cpu")

/-- `v.numpy()`: defined on (cpu) tensors, yielding the numpy scalar,
modelled by its rational value; raises `AttributeError` on a `float`. -/
def PyVal.numpy : PyVal → Except PyError ℚ
  | PyVal.tensor q => Except.ok q
  | PyVal.float _ => Except.error (PyError.attributeError "numpy")

/-- The compound call `v.cpu().numpy()` from `validation_epoch_end`. -/
def cpuNumpy (v : PyVal) : Except PyError ℚ :=
  match v.cpu with
  | Except.error e => Except.error e
  | Except.ok w => w.numpy

/-- Python true division `a / n` where `n` is a list length: raises
`ZeroDivisionError` when `n = 0`. -/
def pydiv (a : ℚ) (n : ℕ) : Except PyError ℚ :=
  if n = 0 then Except.error PyError.zeroDivisionError else Except.ok (a / n)

/-- The `for output in outputs` loop of `validation_epoch_end`: appends
`output[0].cpu().numpy()`, `output[1].cpu().numpy()`,
`output[2].cpu().numpy()` to `loss_list`, `acc1_list`, `acc5_list` in that
order, propagating the first Python error raised. -/
def collectMetricLists :
    List (PyVal × PyVal × PyVal) → Except PyError (List ℚ × List ℚ × List ℚ)
  | [] => Except.ok ([], [], [])
  | o :: rest =>
    match cpuNumpy o.1, cpuNumpy o.2.1, cpuNumpy o.2.2 with
    | Except.ok l, Except.ok a1, Except.ok a5 =>
      match collectMetricLists rest with
      | Except.ok r => Except.ok (l :: r.1, a1 :: r.2.1, a5 :: r.2.2)
      | Except.error e => Except.error e
    | Except.error e, _, _ => Except.error e
    | Except.ok _, Except.error e, _ => Except.error e
    | Except.ok _, Except.ok _, Except.error e => Except.error e

/-- `ImageClassifier.validation_epoch_end`:  collects the three metric
lists from `outputs`, divides each list's sum by its length, logs
`val_loss`, `val_acc1`, `val_acc5` (returned as the list of logged
key/value pairs), and when `self.testing` holds additionally returns the
metric dictionary. -/
def validation_epoch_end (testing : Bool) (outputs : List (PyVal × PyVal × PyVal)) :
    Except PyError (List (String × ℚ) × Option (ℚ × ℚ × ℚ)) :=
  match collectMetricLists outputs with
  | Except.error e => Except.error e
  | Except.ok lists =>
    match pydiv lists.1.sum lists.1.length, pydiv lists.2.1.sum lists.2.1.length,
        pydiv lists.2.2.sum lists.2.2.length with
    | Except.ok loss, Except.ok acc1, Except.ok acc5 =>
      Except.ok ([("val_loss", loss), ("val_acc1", acc1), ("val_acc5", acc5)],
        if testing then some (loss, acc1, acc5) else none)
    | Except.error e, _, _ => Except.error e
    | Except.ok _, Except.error e, _ => Except.error e
    | Except.ok _, Except.ok _, Except.error e => Except.error e

/-- `ImageClassifier.test_epoch_end(outputs)` simply returns
`self.validation_epoch_end(outputs)`. -/
def test_epoch_end (testing : Bool) (outputs : List (PyVal × PyVal × PyVal)) :
    Except PyError (List (String × ℚ) × Option (ℚ × ℚ × ℚ)) :=
  validation_epoch_end testing outputs

/-- A scalar tensor, carrying its numeric value. -/
structure Tensor where
  val : ℚ
  deriving DecidableEq, Repr

/-- `t.item()` on a scalar tensor returns a plain Python float. -/
def Tensor.item (t : Tensor) : PyVal := PyVal.float t.val

/-- `t.mean()` of a scalar tensor is the tensor itself. -/
def Tensor.mean (t : Tensor) : Tensor := t

/-- The `optimizer` sub-table of the hydra configuration. -/
structure OptimizerArgs where
  lr : ℚ
  momentum : ℚ
  weight_decay : ℚ
  lr_step_size : ℕ
  lr_gamma : ℚ
  deriving DecidableEq, Repr

/-- The hydra configuration object `args` read by the script. -/
structure Args where
  exp_name : String
  path2db : String
  path2weight : String
  image_size : ℕ
  crop_size : ℕ
  batch_size : ℕ
  epochs : ℕ
  log_freq : ℕ
  print_freq : ℕ
  seed : ℕ
  num_classes : ℕ
  apex : Bool
  optimizer : OptimizerArgs
  deriving DecidableEq, Repr

/-- The ambient environment the script queries: the hydra original working
directory, `os.cpu_count()`, and the number of images the dataset class
finds under a directory. -/
structure Env where
  cwd : String
  cpu_count : ℕ
  datasetSize : String → ℕ

/-- `os.path.join` for the relative path components this script joins. -/
def joinPath (a b : String) : String := a ++ "/" ++ b

/-- `torchvision` interpolation mode. -/
inductive Interpolation where
  | bilinear
  deriving DecidableEq, Repr

/-- One step of a `transforms.Compose` pipeline, as configured here. -/
inductive TransformStep where
  | resize (size : ℕ) (interp : Interpolation)
  | randomCrop (size : ℕ)
  | centerCrop (size : ℕ)
  | randomHorizontalFlip (p : ℚ)
  | toTensor
  | normalize (mean std : List ℚ)
  deriving DecidableEq, Repr

/-- `ImageClassifier.train_transform`: resize, random crop, random
horizontal flip, to-tensor, normalize. -/
def train_transform (args : Args) : List TransformStep :=
  [TransformStep.resize args.image_size Interpolation.bilinear,
   TransformStep.randomCrop args.crop_size,
   TransformStep.randomHorizontalFlip (1 / 2),
   TransformStep.toTensor,
   TransformStep.normalize [485 / 1000, 456 / 1000, 406 / 1000]
     [229 / 1000, 224 / 1000, 225 / 1000]]

/-- `ImageClassifier.valid_transform`: resize, center crop, to-tensor,
normalize. -/
def valid_transform (args : Args) : List TransformStep :=
  [TransformStep.resize args.image_size Interpolation.bilinear,
   TransformStep.centerCrop args.crop_size,
   TransformStep.toTensor,
   TransformStep.normalize [485 / 1000, 456 / 1000, 406 / 1000]
     [229 / 1000, 224 / 1000, 225 / 1000]]

/-- A constructed `torch.utils.data.DataLoader` over an
`AnimeFaceDataset(root, transform)`, recorded by its configuration. -/
structure DataLoaderConfig where
  root : String
  transform : List TransformStep
  batch_size : ℕ
  shuffle : Bool
  num_workers : ℕ
  pin_memory : Bool
  drop_last : Bool
  worker_seed : ℕ
  deriving DecidableEq, Repr

/-- `len(loader)`: number of batches, dropping the last incomplete batch
exactly when `drop_last` is set. -/
def DataLoaderConfig.numBatches (env : Env) (d : DataLoaderConfig) : ℕ :=
  if d.drop_last then env.datasetSize d.root / d.batch_size
  else (env.datasetSize d.root + d.batch_size - 1) / d.batch_size

/-- `ImageClassifier.__dataloader(train)`: the train loader reads the
`train` subdirectory of `path2db` (joined under the original cwd) with the
training transform, shuffled, dropping the last batch; otherwise the `val`
subdirectory with the validation transform, unshuffled, keeping it. -/
def dataloader (env : Env) (args : Args) (train : Bool) : DataLoaderConfig :=
  { root := joinPath (joinPath env.cwd args.path2db) (if train then "train" else "val")
    transform := if train then train_transform args else valid_transform args
    batch_size := args.batch_size
    shuffle := train
    num_workers := env.cpu_count
    pin_memory := true
    drop_last := train
    worker_seed := args.seed }

/-- `ImageClassifier.train_dataloader`. -/
def train_dataloader (env : Env) (args : Args) : DataLoaderConfig :=
  dataloader env args true

/-- `ImageClassifier.val_dataloader`. -/
def val_dataloader (env : Env) (args : Args) : DataLoaderConfig :=
  dataloader env args false

/-- `ImageClassifier.test_dataloader`. -/
def test_dataloader (env : Env) (args : Args) : DataLoaderConfig :=
  dataloader env args false

/-- The `ModelCheckpoint` callback, recorded by its configuration. -/
structure ModelCheckpointConfig where
  monitor : String
  mode : String
  dirpath : String
  filename : String
  deriving DecidableEq, Repr

/-- `ImageClassifier.configure_callbacks`: a single `ModelCheckpoint`
monitoring `val_loss` with mode `min`, writing to
`os.path.join(get_original_cwd(), args.path2weight)` under the file name
`f"{args.exp_name}_mobilenetv2_best"`. -/
def configure_callbacks (env : Env) (args : Args) : List ModelCheckpointConfig :=
  [{ monitor := "val_loss"
     mode := "min"
     dirpath := joinPath env.cwd args.path2weight
     filename := args.exp_name ++ "_mobilenetv2_best" }]

/-- The `optim.SGD` optimizer, recorded by its hyperparameters. -/
structure SGDConfig where
  lr : ℚ
  momentum : ℚ
  weight_decay : ℚ
  deriving DecidableEq, Repr

/-- The `StepLR` scheduler, recorded by its hyperparameters. -/
structure StepLRConfig where
  step_size : ℕ
  gamma : ℚ
  deriving DecidableEq, Repr

/-- `ImageClassifier.configure_optimizers`: SGD from the configured
optimizer hyperparameters and a `StepLR` whose step size is
`lr_step_size * len(self.train_dataloader())`. -/
def configure_optimizers (env : Env) (args : Args) :
    List SGDConfig × List StepLRConfig :=
  let epoch_per_iteration := DataLoaderConfig.numBatches env (train_dataloader env args)
  ([{ lr := args.optimizer.lr
      momentum := args.optimizer.momentum
      weight_decay := args.optimizer.weight_decay }],
   [{ step_size := args.optimizer.lr_step_size * epoch_per_iteration
      gamma := args.optimizer.lr_gamma }])

/-- The state of an `ImageClassifier` instance, over abstract image,
target and network-output types: the configuration `self.args`, the
wrapped network `self.model` and loss `self.criterion` (with the imported
`accuracy` helper), together with the framework-visible mutable parts the
methods touch: `self.global_step`, the values passed to `self.log`
(accumulated in call order), and the `self.testing` flag. -/
structure ClassifierState (Image Target Output : Type) where
  args : Args
  model : Image → Output
  criterion : Output → Target → Tensor
  accuracyFn : Output → Target → Tensor × Tensor
  global_step : ℕ
  logged : List (String × ℚ)
  testing : Bool

namespace ClassifierState

variable {Image Target Output : Type}

/-- `ImageClassifier.forward(x)`: apply the wrapped network; no instance
state is touched. -/
def forward (s : ClassifierState Image Target Output) (x : Image) :
    Output × ClassifierState Image Target Output :=
  (s.model x, s)

/-- `ImageClassifier.training_step`: computes the loss; every `log_freq`
global steps also computes top-1/top-5 accuracy and logs `train_loss`,
`train_acc1`, `train_acc5` (each via `.item()`); returns the loss tensor
(the sole entry of the returned `{"loss": loss}` dict). -/
def training_step (s : ClassifierState Image Target Output)
    (batch : Image × Target) (_batch_nb : ℕ) :
    Tensor × ClassifierState Image Target Output :=
  let output := (s.forward batch.1).1
  let loss := s.criterion output batch.2
  if s.global_step % s.args.log_freq = 0 then
    let acc := s.accuracyFn output batch.2
    (loss, { s with logged := s.logged ++
      [("train_loss", loss.val), ("train_acc1", acc.1.val), ("train_acc5", acc.2.val)] })
  else
    (loss, s)

/-- `ImageClassifier.training_step_end(batch_parts)`: returns
`batch_parts["loss"].mean()`. -/
def training_step_end (s : ClassifierState Image Target Output)
    (batch_parts : Tensor) : Tensor × ClassifierState Image Target Output :=
  (batch_parts.mean, s)

/-- `ImageClassifier.validation_step`: runs the network, computes loss and
top-1/top-5 accuracy, and returns the triple
`(loss.item(), acc1.item(), acc5.item())` of plain Python floats. -/
def validation_step (s : ClassifierState Image Target Output)
    (batch : Image × Target) (_batch_idx : ℕ) :
    (PyVal × PyVal × PyVal) × ClassifierState Image Target Output :=
  let output := (s.forward batch.1).1
  let loss := s.criterion output batch.2
  let acc := s.accuracyFn output batch.2
  ((loss.item, acc.1.item, acc.2.item), s)

/-- `ImageClassifier.test_step(batch, batch_idx)` simply returns
`self.validation_step(batch, batch_idx)`. -/
def test_step (s : ClassifierState Image Target Output)
    (batch : Image × Target) (batch_idx : ℕ) :
    (PyVal × PyVal × PyVal) × ClassifierState Image Target Output :=
  s.validation_step batch batch_idx

/-- `ImageClassifier.validation_epoch_end` as a method: on success the
logged `val_loss`, `val_acc1`, `val_acc5` pairs are appended to the log
stream and the optional metric dict is returned. -/
def validation_epoch_end_m (s : ClassifierState Image Target Output)
    (outputs : List (PyVal × PyVal × PyVal)) :
    Except PyError (Option (ℚ × ℚ × ℚ) × ClassifierState Image Target Output) :=
  match validation_epoch_end s.testing outputs with
  | Except.error e => Except.error e
  | Except.ok r => Except.ok (r.2, { s with logged := s.logged ++ r.1 })

/-- `ImageClassifier.test_epoch_end` as a method: delegates to
`validation_epoch_end`. -/
def test_epoch_end_m (s : ClassifierState Image Target Output)
    (outputs : List (PyVal × PyVal × PyVal)) :
    Except PyError (Option (ℚ × ℚ × ℚ) × ClassifierState Image Target Output) :=
  s.validation_epoch_end_m outputs

/-- `ImageClassifier.configure_optimizers` as a method. -/
def configure_optimizers_m (env : Env) (s : ClassifierState Image Target Output) :
    (List SGDConfig × List StepLRConfig) × ClassifierState Image Target Output :=
  (configure_optimizers env s.args, s)

/-- `ImageClassifier.configure_callbacks` as a method. -/
def configure_callbacks_m (env : Env) (s : ClassifierState Image Target Output) :
    List ModelCheckpointConfig × ClassifierState Image Target Output :=
  (configure_callbacks env s.args, s)

/-- `ImageClassifier.train_dataloader` as a method. -/
def train_dataloader_m (env : Env) (s : ClassifierState Image Target Output) :
    DataLoaderConfig × ClassifierState Image Target Output :=
  (train_dataloader env s.args, s)

/-- `ImageClassifier.val_dataloader` as a method. -/
def val_dataloader_m (env : Env) (s : ClassifierState Image Target Output) :
    DataLoaderConfig × ClassifierState Image Target Output :=
  (val_dataloader env s.args, s)

/-- `ImageClassifier.test_dataloader` as a method. -/
def test_dataloader_m (env : Env) (s : ClassifierState Image Target Output) :
    DataLoaderConfig × ClassifierState Image Target Output :=
  (test_dataloader env s.args, s)

end ClassifierState

/-- The observable actions `main` performs, in program order. -/
inductive Event where
  | mlflowWriterInit
  | writeLogBase
  | loggerInit
  | seedEverything
  | buildModel
  | buildCriterion
  | buildPlModel
  | buildTrainer
  | fit
  | test
  | moveMlruns
  | printElapsed
  deriving DecidableEq, Repr

/-- The sequence of actions in the body of `main`, read off its statement
list: build the writer and logger, seed, build model/criterion/module and
trainer, `trainer.fit`, `trainer.test`, `writer.move_mlruns()`, then print
the elapsed time. -/
def mainTrace : List Event :=
  [Event.mlflowWriterInit, Event.writeLogBase, Event.loggerInit,
   Event.seedEverything, Event.buildModel, Event.buildCriterion,
   Event.buildPlModel, Event.buildTrainer, Event.fit, Event.test,
   Event.moveMlruns, Event.printElapsed]

/-- Python `int(q)`: truncation toward zero. -/
def pyint (q : ℚ) : ℤ := if q < 0 then -⌊-q⌋ else ⌊q⌋

/-- Python `a % b` on floats (for `b ≠ 0`): `a - b * floor(a / b)`. -/
def pymod (a b : ℚ) : ℚ := a - b * ⌊a / b⌋

/-- `int(interval / 3600)` from the elapsed-time print in `main`. -/
def elapsed_hours (interval : ℚ) : ℤ := pyint (interval / 3600)

/-- `int((interval % 3600) / 60)` from the elapsed-time print in `main`. -/
def elapsed_minutes (interval : ℚ) : ℤ := pyint (pymod interval 3600 / 60)

/-- `int((interval % 3600) % 60)` from the elapsed-time print in `main`. -/
def elapsed_seconds (interval : ℚ) : ℤ := pyint (pymod (pymod interval 3600) 60)

/-- The mean of a metric over the samples of one batch: this is what each
per-batch value handed to `validation_epoch_end` is (the per-batch loss and
accuracies are batch averages). -/
def batchMean (xs : List ℚ) : ℚ := xs.sum / xs.length

/-- The true mean of a metric over all individual samples of an epoch
split into batches (the comparison target of the accuracy claim about a
non-uniform final batch). -/
def sampleMean (batches : List (List ℚ)) : ℚ :=
  (batches.map List.sum).sum / ((batches.map List.length).sum : ℕ)

/-- A concrete configuration object, for concrete-input instantiations. -/
def sampleArgs : Args :=
  { exp_name := "exp"
    path2db := "db"
    path2weight := "weight"
    image_size := 256
    crop_size := 224
    batch_size := 32
    epochs := 10
    log_freq := 100
    print_freq := 100
    seed := 1
    num_classes := 176
    apex := false
    optimizer :=
      { lr := 1 / 10
        momentum := 9 / 10
        weight_decay := 1 / 10000
        lr_step_size := 10
        lr_gamma := 1 / 10 } }

/-- A concrete classifier instance over trivial image/target/output types,
for concrete-input instantiations. -/
def sampleClassifier : ClassifierState Unit Unit Unit :=
  { args := sampleArgs
    model := fun _ => ()
    criterion := fun _ _ => ⟨1⟩
    accuracyFn := fun _ _ => (⟨1⟩, ⟨1⟩)
    global_step := 0
    logged := []
    testing := false }

lemma collectMetricLists_tensor (qs : List (ℚ × ℚ × ℚ)) :
    collectMetricLists
        (qs.map fun q => (PyVal.tensor q.1, PyVal.tensor q.2.1, PyVal.tensor q.2.2))
      = Except.ok (qs.map fun q => q.1, qs.map fun q => q.2.1, qs.map fun q => q.2.2) := by
  induction qs with
  | nil => rfl
  | cons q rest ih =>
    simp [collectMetricLists, cpuNumpy, PyVal.cpu, PyVal.numpy, ih]

/-- C1: on a non-empty list of per-batch `(loss, acc1, acc5)` outputs,
`validation_epoch_end` logs, for each of `val_loss`, `val_acc1` and
`val_acc5`, the arithmetic mean of the per-batch values: the sum of the
per-batch values divided by the number of batches. -/
theorem validation_epoch_end_logs_means (testing : Bool) (qs : List (ℚ × ℚ × ℚ))
    (h : qs ≠ []) :
    validation_epoch_end testing
        (qs.map fun q => (PyVal.tensor q.1, PyVal.tensor q.2.1, PyVal.tensor q.2.2))
      = Except.ok
          ([("val_loss", (qs.map fun q => q.1).sum / qs.length),
            ("val_acc1", (qs.map fun q => q.2.1).sum / qs.length),
            ("val_acc5", (qs.map fun q => q.2.2).sum / qs.length)],
           if testing then
             some ((qs.map fun q => q.1).sum / qs.length,
                   (qs.map fun q => q.2.1).sum / qs.length,
                   (qs.map fun q => q.2.2).sum / qs.length)
           else none) := by
  have hlen : qs.length ≠ 0 := fun hl => h (List.length_eq_zero.mp hl)
  unfold validation_epoch_end
  rw [collectMetricLists_tensor]
  simp [pydiv, hlen]

/-- Witness for C1 at a concrete two-batch input. -/
theorem validation_epoch_end_logs_means_witness :
    ([((1 : ℚ), (2 : ℚ), (3 : ℚ)), (3, 4, 5)] ≠ ([] : List (ℚ × ℚ × ℚ))) ∧
    validation_epoch_end false
        ([((1 : ℚ), (2 : ℚ), (3 : ℚ)), (3, 4, 5)].map fun q =>
          (PyVal.tensor q.1, PyVal.tensor q.2.1, PyVal.tensor q.2.2))
      = Except.ok ([("val_loss", 2), ("val_acc1", 3), ("val_acc5", 4)], none) := by
  constructor
  · simp
  · have h := validation_epoch_end_logs_means false [(1, 2, 3), (3, 4, 5)] (by simp)
    rw [h]
    norm_num

/-- C2: the unweighted mean of per-batch means computed by
`validation_epoch_end` differs from the true per-sample mean when the
final batch is smaller: on batches `[0, 0]` and `[1]` the code logs
`1/2` for each metric while the mean over the three samples is `1/3`. -/
theorem unweighted_batch_mean_ne_sample_mean :
    List.length [(1 : ℚ)] < List.length [(0 : ℚ), 0] ∧
    validation_epoch_end false
        ([[(0 : ℚ), 0], [1]].map fun b =>
          (PyVal.tensor (batchMean b), PyVal.tensor (batchMean b), PyVal.tensor (batchMean b)))
      = Except.ok
          ([("val_loss", 1 / 2), ("val_acc1", 1 / 2), ("val_acc5", 1 / 2)], none) ∧
    sampleMean [[(0 : ℚ), 0], [1]] = 1 / 3 ∧
    (1 : ℚ) / 2 ≠ 1 / 3 := by
  refine ⟨by norm_num, ?_, by norm_num [sampleMean], by norm_num⟩
  norm_num [validation_epoch_end, collectMetricLists, cpuNumpy, PyVal.cpu,
    PyVal.numpy, pydiv, batchMean]

/-- C8: on any non-empty list of outputs actually produced by
`validation_step` — triples `(loss.item(), acc1.item(), acc5.item())` of
plain Python floats — `validation_epoch_end` raises `AttributeError` on
`.cpu()` before computing any average. -/
theorem validation_epoch_end_floats_attribute_error
    {Image Target Output : Type} (t : Bool)
    (s : ClassifierState Image Target Output)
    (batches : List ((Image × Target) × ℕ)) (h : batches ≠ []) :
    validation_epoch_end t (batches.map fun b => (s.validation_step b.1 b.2).1)
      = Except.error (PyError.attributeError "cpu") := by
  match batches, h with
  | b :: rest, _ =>
    simp [validation_epoch_end, collectMetricLists, ClassifierState.validation_step,
      Tensor.item, cpuNumpy, PyVal.cpu]

/-- Witness for C8 at a concrete classifier and one concrete batch. -/
theorem validation_epoch_end_floats_attribute_error_witness :
    ([(((), ()), 0)] : List ((Unit × Unit) × ℕ)) ≠ [] ∧
    validation_epoch_end false
        (([(((), ()), 0)] : List ((Unit × Unit) × ℕ)).map fun b =>
          (sampleClassifier.validation_step b.1 b.2).1)
      = Except.error (PyError.attributeError "cpu") :=
  ⟨by simp,
   validation_epoch_end_floats_attribute_error false sampleClassifier
     [(((), ()), 0)] (by simp)⟩

/-- C10: on an empty outputs list both `validation_epoch_end` and
`test_epoch_end` divide by the zero length of the empty list and raise
`ZeroDivisionError` instead of returning a defined result. -/
theorem validation_epoch_end_empty_zero_division (t : Bool) :
    validation_epoch_end t [] = Except.error PyError.zeroDivisionError ∧
    test_epoch_end t [] = Except.error PyError.zeroDivisionError :=
  ⟨rfl, rfl⟩

/-- C3: every `ImageClassifier` operation — forward, the step and
epoch-end methods, optimizer/callback configuration and the dataloader
constructors — leaves `self.args` unchanged (for the fallible epoch-end
methods: whatever state they return carries the original `args`). -/
theorem classifier_methods_preserve_args
    {Image Target Output : Type} (env : Env)
    (s : ClassifierState Image Target Output)
    (x : Image) (batch : Image × Target) (n : ℕ) (t : Tensor)
    (outputs : List (PyVal × PyVal × PyVal)) :
    (s.forward x).2.args = s.args ∧
    (s.training_step batch n).2.args = s.args ∧
    (s.training_step_end t).2.args = s.args ∧
    (s.validation_step batch n).2.args = s.args ∧
    (s.test_step batch n).2.args = s.args ∧
    (s.validation_epoch_end_m outputs).map (fun p => p.2.args)
      = (s.validation_epoch_end_m outputs).map (fun _ => s.args) ∧
    (s.test_epoch_end_m outputs).map (fun p => p.2.args)
      = (s.test_epoch_end_m outputs).map (fun _ => s.args) ∧
    (s.configure_optimizers_m env).2.args = s.args ∧
    (s.configure_callbacks_m env).2.args = s.args ∧
    (s.train_dataloader_m env).2.args = s.args ∧
    (s.val_dataloader_m env).2.args = s.args ∧
    (s.test_dataloader_m env).2.args = s.args := by
  have hv : (s.validation_epoch_end_m outputs).map (fun p => p.2.args)
      = (s.validation_epoch_end_m outputs).map (fun _ => s.args) := by
    cases hee : validation_epoch_end s.testing outputs with
    | error e => simp [ClassifierState.validation_epoch_end_m, hee, Except.map]
    | ok r => simp [ClassifierState.validation_epoch_end_m, hee, Except.map]
  have ht : (s.training_step batch n).2.args = s.args := by
    by_cases hc : s.global_step % s.args.log_freq = 0 <;>
      simp [ClassifierState.training_step, hc]
  exact ⟨rfl, ht, rfl, rfl, rfl, hv, hv, rfl, rfl, rfl, rfl, rfl⟩

/-- C4: the train loader reads the `train` subdirectory of `path2db` with
the training transform, shuffling on and the last incomplete batch
dropped; the validation and test loaders read the `val` subdirectory with
the validation transform, no shuffling and the last batch kept; all three
use the configured batch size. -/
theorem dataloaders_configuration (env : Env) (args : Args) :
    (train_dataloader env args).root = joinPath (joinPath env.cwd args.path2db) "train" ∧
    (train_dataloader env args).transform = train_transform args ∧
    (train_dataloader env args).shuffle = true ∧
    (train_dataloader env args).drop_last = true ∧
    (train_dataloader env args).batch_size = args.batch_size ∧
    (val_dataloader env args).root = joinPath (joinPath env.cwd args.path2db) "val" ∧
    (val_dataloader env args).transform = valid_transform args ∧
    (val_dataloader env args).shuffle = false ∧
    (val_dataloader env args).drop_last = false ∧
    (val_dataloader env args).batch_size = args.batch_size ∧
    (test_dataloader env args).root = joinPath (joinPath env.cwd args.path2db) "val" ∧
    (test_dataloader env args).transform = valid_transform args ∧
    (test_dataloader env args).shuffle = false ∧
    (test_dataloader env args).drop_last = false ∧
    (test_dataloader env args).batch_size = args.batch_size :=
  ⟨rfl, rfl, rfl, rfl, rfl, rfl, rfl, rfl, rfl, rfl, rfl, rfl, rfl, rfl, rfl⟩

/-- C5: `configure_callbacks` returns exactly one checkpoint callback,
monitoring `val_loss` with mode `min`, writing to the original working
directory joined with `path2weight`, named `<exp_name>_mobilenetv2_best`. -/
theorem configure_callbacks_single_checkpoint (env : Env) (args : Args) :
    configure_callbacks env args
      = [{ monitor := "val_loss"
           mode := "min"
           dirpath := joinPath env.cwd args.path2weight
           filename := args.exp_name ++ "_mobilenetv2_best" }] ∧
    (configure_callbacks env args).length = 1 :=
  ⟨rfl, rfl⟩

/-- C6: in `main`, `writer.move_mlruns()` happens exactly once, after both
`trainer.fit` and `trainer.test` (each of which also happens exactly
once), so the run artifacts are relocated only at the end of the run. -/
theorem move_mlruns_after_fit_and_test :
    mainTrace.count Event.moveMlruns = 1 ∧
    mainTrace.count Event.fit = 1 ∧
    mainTrace.count Event.test = 1 ∧
    mainTrace.indexOf Event.fit < mainTrace.indexOf Event.moveMlruns ∧
    mainTrace.indexOf Event.test < mainTrace.indexOf Event.moveMlruns := by
  decide

/-- C9: the test path coincides with the validation path: `test_step` is
`validation_step` on the same batch, `test_epoch_end` is
`validation_epoch_end` on the same outputs, and `test_dataloader` builds
the same loader as `val_dataloader` — reading the `val` split with the
validation transform. -/
theorem test_path_eq_validation_path
    {Image Target Output : Type} (s : ClassifierState Image Target Output)
    (batch : Image × Target) (idx : ℕ) (t : Bool)
    (outputs : List (PyVal × PyVal × PyVal)) (env : Env) (args : Args) :
    s.test_step batch idx = s.validation_step batch idx ∧
    test_epoch_end t outputs = validation_epoch_end t outputs ∧
    s.test_epoch_end_m outputs = s.validation_epoch_end_m outputs ∧
    test_dataloader env args = val_dataloader env args ∧
    (test_dataloader env args).root = joinPath (joinPath env.cwd args.path2db) "val" ∧
    (test_dataloader env args).transform = valid_transform args :=
  ⟨rfl, rfl, rfl, rfl, rfl, rfl⟩

lemma pyint_of_nonneg {q : ℚ} (h : 0 ≤ q) : pyint q = ⌊q⌋ := by
  unfold pyint
  rw [if_neg (not_lt.mpr h)]

lemma pymod_eq_mul_fract (a : ℚ) {b : ℚ} (hb : b ≠ 0) :
    pymod a b = b * Int.fract (a / b) := by
  unfold pymod Int.fract
  rw [mul_sub, mul_comm b (a / b), div_mul_cancel₀ a hb]

lemma pymod_bounds (a : ℚ) {b : ℚ} (hb : 0 < b) :
    0 ≤ pymod a b ∧ pymod a b < b := by
  rw [pymod_eq_mul_fract a hb.ne.symm]
  exact ⟨mul_nonneg hb.le (Int.fract_nonneg _),
    mul_lt_of_lt_one_right hb (Int.fract_lt_one _)⟩

/-- C7: for every non-negative elapsed interval, the printed decomposition
is exact: hours is the floor of `interval / 3600`, minutes and seconds lie
in `[0, 60)`, and `3600 * hours + 60 * minutes + seconds` is the floor of
the interval. -/
theorem elapsed_time_decomposition (i : ℚ) (h : 0 ≤ i) :
    elapsed_hours i = ⌊i / 3600⌋ ∧
    0 ≤ elapsed_minutes i ∧ elapsed_minutes i < 60 ∧
    0 ≤ elapsed_seconds i ∧ elapsed_seconds i < 60 ∧
    3600 * elapsed_hours i + 60 * elapsed_minutes i + elapsed_seconds i = ⌊i⌋ := by
  have h36 : (0 : ℚ) < 3600 := by norm_num
  have h60 : (0 : ℚ) < 60 := by norm_num
  have hrb := pymod_bounds i h36
  have hr2b := pymod_bounds (pymod i 3600) h60
  have hH : elapsed_hours i = ⌊i / 3600⌋ :=
    pyint_of_nonneg (div_nonneg h h36.le)
  have hM : elapsed_minutes i = ⌊pymod i 3600 / 60⌋ :=
    pyint_of_nonneg (div_nonneg hrb.1 h60.le)
  have hS : elapsed_seconds i = ⌊pymod (pymod i 3600) 60⌋ :=
    pyint_of_nonneg hr2b.1
  have hMnn : 0 ≤ ⌊pymod i 3600 / 60⌋ :=
    Int.floor_nonneg.mpr (div_nonneg hrb.1 h60.le)
  have hMlt : ⌊pymod i 3600 / 60⌋ < 60 :=
    Int.floor_lt.mpr (by rw [div_lt_iff₀ h60]; norm_num; linarith [hrb.2])
  have hSnn : 0 ≤ ⌊pymod (pymod i 3600) 60⌋ := Int.floor_nonneg.mpr hr2b.1
  have hSlt : ⌊pymod (pymod i 3600) 60⌋ < 60 :=
    Int.floor_lt.mpr (by exact_mod_cast hr2b.2)
  have hfr : ⌊pymod i 3600⌋ = ⌊i⌋ - 3600 * ⌊i / 3600⌋ := by
    have he : pymod i 3600 = i - ((3600 * ⌊i / 3600⌋ : ℤ) : ℚ) := by
      unfold pymod
      push_cast
      ring
    rw [he, Int.floor_sub_int]
  have hfr2 : ⌊pymod (pymod i 3600) 60⌋
      = ⌊pymod i 3600⌋ - 60 * ⌊pymod i 3600 / 60⌋ := by
    have he : pymod (pymod i 3600) 60
        = pymod i 3600 - ((60 * ⌊pymod i 3600 / 60⌋ : ℤ) : ℚ) := by
      conv_lhs => rw [pymod]
      push_cast
      ring
    rw [he, Int.floor_sub_int]
  refine ⟨hH, by rw [hM]; exact hMnn, by rw [hM]; exact hMlt,
    by rw [hS]; exact hSnn, by rw [hS]; exact hSlt, ?_⟩
  rw [hH, hM, hS, hfr2, hfr]
  ring

/-- Witness for C7 at the concrete interval 3725 seconds. -/
theorem elapsed_time_decomposition_witness :
    (0 : ℚ) ≤ 3725 ∧
    (elapsed_hours 3725 = ⌊(3725 : ℚ) / 3600⌋ ∧
     0 ≤ elapsed_minutes 3725 ∧ elapsed_minutes 3725 < 60 ∧
     0 ≤ elapsed_seconds 3725 ∧ elapsed_seconds 3725 < 60 ∧
     3600 * elapsed_hours 3725 + 60 * elapsed_minutes 3725 + elapsed_seconds 3725
       = ⌊(3725 : ℚ)⌋) :=
  ⟨by norm_num, elapsed_time_decomposition 3725 (by norm_num)⟩

end AnimeFace
